import Mathlib

/-!
Verification development for the thumbnail production-and-caching backend
(`src/backend/server.py`).

The Python source is shallowly embedded below.  Conventions of the embedding:

* Python floating-point arithmetic is modelled exactly: pixel samples live in
  `ℝ` (the tone mapper applies a real power function), and the dimension
  arithmetic of the resize code is carried out in `ℚ` with `int(...)`
  modelled as integer truncation (floor, since all operands are nonnegative).
* Stateful code (the on-disk cache directory) is modelled by explicit state
  passing of an `FS` value; the filesystem seen by `os.path` calls and the
  decoders is a `World` of query functions.  Exceptions that the Python
  swallows are modelled by totality; exceptions that propagate to a caller
  are modelled with `Except`.
* `asyncio.gather` returns results in task order, so the parallel batch is
  modelled as an order-preserving traversal threading the cache state.
* Python's `sorted`/`list.sort` is a stable sort; any two stable sorts with
  the same key agree pointwise, so it is modelled by a stable insertion sort.
-/

namespace ImageServer

/-! ## Pixel buffers (numpy arrays and PIL images) -/

/-- Per-channel numeric kind of a decoded numpy buffer. -/
inductive Dtype where
  | uint8
  | uint16
  | float32
  | float64
deriving DecidableEq

/-- The dtype test `img_array.dtype in [np.float32, np.float64]` used by the
tone-mapping dispatch. -/
def isFloatDtype : Dtype → Bool
  | .float32 => true
  | .float64 => true
  | _ => false

/-- A decoded numpy pixel buffer: `channels = none` models a 2-dimensional
(grayscale) array, `channels = some c` a 3-dimensional array whose last axis
has length `c`.  `samples` is the flattened sample data. -/
structure ImgArray where
  width : ℕ
  height : ℕ
  channels : Option ℕ
  dtype : Dtype
  samples : List ℝ

/-- A PIL image as the resize/encode code observes it: its size and mode. -/
structure PILImage where
  width : ℕ
  height : ℕ
  mode : String
deriving DecidableEq

/-- Byte strings flowing through the pipeline.  JPEG encoding is an external
codec primitive, so an encoded result is modelled symbolically by the image
and quality handed to the encoder; bytes read from disk that this process did
not encode are `raw`. -/
inductive BytesVal where
  | raw (data : List ℕ)
  | jpeg (img : PILImage) (quality : ℕ)
deriving DecidableEq

/-- Python truthiness of a bytes value (`if cached_bytes:`): empty bytes are
falsy.  A JPEG encoding is never empty. -/
def bytesTruthy : BytesVal → Bool
  | .raw data => !data.isEmpty
  | .jpeg _ _ => true

/-- A base64 data URL, modelled symbolically by the mime type and the encoder
inputs (`image_to_data_url` is injective on them). -/
structure DataUrl where
  mime : String
  img : PILImage
  quality : ℕ
deriving DecidableEq

/-- `image_to_bytes(pil_img, format='JPEG', quality)`: every call site in the
source passes format JPEG (or leaves the JPEG default), so the format
argument is dropped.  The Python default quality is 90. -/
def image_to_bytes (pil_img : PILImage) (quality : ℕ) : BytesVal :=
  BytesVal.jpeg pil_img quality

/-- `image_to_data_url(pil_img, format='JPEG', quality)`; the Python default
quality is 90, and call sites that omit the argument are embedded passing 90
explicitly. -/
def image_to_data_url (pil_img : PILImage) (quality : ℕ) : DataUrl :=
  { mime := "image/jpeg", img := pil_img, quality := quality }

/-! ## Cache store -/

/-- A cache key: the md5 hex digest of the derivation string. -/
structure CacheKey where
  digest : String
deriving DecidableEq

/-- Modelled from the spec: `hashlib.md5(...).hexdigest()` is an external
digest primitive whose code is not part of this repository.  Spec section 3
states that two requests map to the same `CacheKey` iff the derivation inputs
match exactly, so the digest is modelled as an injective constructor applied
to the digested string. -/
def md5hex (s : String) : CacheKey :=
  { digest := s }

/-- `get_cache_key(image_path, size)`.  The `os.path.getmtime` call is the
query `mtimeOf`; `none` models the call raising (missing file or failing
stat), in which case the bare `except:` falls back to the path-and-size-only
derivation string.  The modification time is represented by its formatted
text (the f-string interpolation of the Python float). -/
def get_cache_key (mtimeOf : String → Option String) (image_path : String) (size : ℕ) :
    CacheKey :=
  match mtimeOf image_path with
  | some mtime => md5hex (image_path ++ "_" ++ toString size ++ "_" ++ mtime)
  | none => md5hex (image_path ++ "_" ++ toString size)

/-- The on-disk cache directory plus the outcomes of I/O on it: `files` maps a
file name inside `CACHE_DIR` to its content (or `none` if absent),
`readFails n` says a read of `n` raises, `writeFails n` says a write of `n`
raises. -/
structure FS where
  files : String → Option BytesVal
  readFails : String → Bool
  writeFails : String → Bool

/-- The artifact name `f"{cache_key}.jpg"` inside the cache directory. -/
def cacheFileName (key : CacheKey) : String :=
  key.digest ++ ".jpg"

/-- `get_cached_thumbnail(cache_key)`: returns the artifact's bytes if the
file exists and reading succeeds; a failed read or a missing file yields
`None` (the I/O error is swallowed by the bare `except:`). -/
def get_cached_thumbnail (fs : FS) (key : CacheKey) : Option BytesVal :=
  match fs.files (cacheFileName key) with
  | some b => if fs.readFails (cacheFileName key) then none else some b
  | none => none

/-- `save_cached_thumbnail(cache_key, image_bytes)`: writes the artifact; a
failing write is logged and ignored, leaving the store unchanged. -/
def save_cached_thumbnail (fs : FS) (key : CacheKey) (b : BytesVal) : FS :=
  if fs.writeFails (cacheFileName key) then fs
  else { fs with
          files := fun m => if m = cacheFileName key then some b else fs.files m }

/-! ## Tone mapper (`process_hdr_image`) -/

/-- `np.max` over the flattened samples (the source never takes the max of an
empty buffer; the empty case is given the junk value 0). -/
noncomputable def listMax : List ℝ → ℝ
  | [] => 0
  | x :: xs => xs.foldl max x

/-- `process_hdr_image(img_array, gamma=2.2)`: on a floating-point buffer,
clip negatives, apply the power `1/gamma`, divide by the global maximum when
it is positive, scale by 255 and truncate to `np.uint8` (a C cast: truncation
then reduction mod 256); any other dtype passes through unchanged. -/
noncomputable def process_hdr_image (gamma : ℝ) (img : ImgArray) : ImgArray :=
  if isFloatDtype img.dtype then
    let s1 := img.samples.map fun x => max x 0
    let s2 := s1.map fun x => x ^ ((1 : ℝ) / gamma)
    let img_max := listMax s2
    let s3 := if 0 < img_max then s2.map (fun x => x / img_max) else s2
    let s4 := s3.map fun x => (((⌊x * 255⌋).toNat % 256 : ℕ) : ℝ)
    { img with dtype := Dtype.uint8, samples := s4 }
  else img

/-- Stage 1 of the tone-mapping sequence as the spec words it: clamp negative
samples to zero. -/
noncomputable def clampNegStage (l : List ℝ) : List ℝ :=
  l.map fun x => max x 0

/-- Stage 2 as the spec words it: raise each sample to the power `1/gamma`. -/
noncomputable def gammaStage (gamma : ℝ) (l : List ℝ) : List ℝ :=
  l.map fun x => x ^ ((1 : ℝ) / gamma)

/-- Stage 3 as the spec words it: divide every sample by the buffer's global
maximum sample value when that maximum is positive, and skip the division
otherwise. -/
noncomputable def normalizeStage (l : List ℝ) : List ℝ :=
  if 0 < listMax l then l.map (fun x => x / listMax l) else l

/-- Stage 4 as the spec words it: multiply by 255 and truncate to unsigned
8-bit integers. -/
noncomputable def quantizeStage (l : List ℝ) : List ℝ :=
  l.map fun x => (((⌊x * 255⌋).toNat % 256 : ℕ) : ℝ)

/-- The tone mapper exactly as claim C4 words it: the four stages composed in
order, producing an 8-bit buffer. -/
noncomputable def toneMapSpecC4 (gamma : ℝ) (img : ImgArray) : ImgArray :=
  { img with
    dtype := Dtype.uint8,
    samples := quantizeStage (normalizeStage (gammaStage gamma (clampNegStage img.samples))) }

/-! ## Resize dimension arithmetic -/

/-- The dimension arithmetic of `create_thumbnail_optimized`: the longer side
becomes `size` and the shorter becomes `int((shorter * size) / longer)` —
float division then `int` truncation, i.e. floor on these nonnegative
operands, with no lower clamp.  Result is `(new_width, new_height)`. -/
def optimizedDims (width height size : ℕ) : ℕ × ℕ :=
  if height < width then (size, height * size / width)
  else (width * size / height, size)

/-- PIL's `round_aspect(number, key)`: of `floor number` and `ceil number`,
pick the one with the smaller key (`min` keeps the floor on ties), then clamp
to at least 1. -/
def roundAspect (number : ℚ) (key : ℤ → ℚ) : ℤ :=
  max (if key ⌊number⌋ ≤ key ⌈number⌉ then ⌊number⌋ else ⌈number⌉) 1

/-- The size computation of `PIL.Image.thumbnail((size, size))` (Pillow's
`preserve_aspect_ratio`): no-op when the box covers the image, otherwise the
longer side becomes `size` and the shorter is `round_aspect` of the
proportional value, with the two branches' key functions as in Pillow. -/
def pilThumbnailDims (width height size : ℕ) : ℕ × ℕ :=
  if size ≥ width ∧ size ≥ height then (width, height)
  else if (1 : ℚ) ≥ (width : ℚ) / (height : ℚ) then
    ((roundAspect ((size : ℚ) * ((width : ℚ) / (height : ℚ)))
        fun n => |(width : ℚ) / (height : ℚ) - (n : ℚ) / (size : ℚ)|).toNat, size)
  else
    (size,
     (roundAspect ((size : ℚ) / ((width : ℚ) / (height : ℚ)))
        fun n => if n = 0 then 0
                 else |(width : ℚ) / (height : ℚ) - (size : ℚ) / (n : ℚ)|).toNat)

/-- `pil_img.thumbnail((size, size), LANCZOS)` as it acts on the observed
image data: only the dimensions change. -/
def applyPilThumbnail (img : PILImage) (size : ℕ) : PILImage :=
  { img with
    width := (pilThumbnailDims img.width img.height size).1,
    height := (pilThumbnailDims img.width img.height size).2 }

/-- The `if pil_img.mode == 'RGBA':` white-background compositing: the result
is an RGB image of the same size. -/
def flattenRGBA (img : PILImage) : PILImage :=
  if img.mode = "RGBA" then { img with mode := "RGB" } else img

/-! ## Thumbnail builders -/

/-- The `Image.fromarray` mode dispatch shared by `create_thumbnail` and the
full-image endpoints: 2-dimensional data is `L`, a last axis of 3 is `RGB`,
of 4 is `RGBA`, anything else raises `ValueError("Unsupported image shape")`
(the interpolated shape tuple of the Python message is elided). -/
def modeOfArray (a : ImgArray) : Except String String :=
  match a.channels with
  | none => Except.ok "L"
  | some 3 => Except.ok "RGB"
  | some 4 => Except.ok "RGBA"
  | some _ => Except.error "Unsupported image shape"

/-- `create_thumbnail(img_array, size)`: tone-map floating buffers, build a
PIL image (raising on unsupported shapes), shrink with `Image.thumbnail`,
then flatten RGBA over white for JPEG compatibility. -/
noncomputable def create_thumbnail (a : ImgArray) (size : ℕ) : Except String PILImage :=
  let a' := if isFloatDtype a.dtype then process_hdr_image 2.2 a else a
  match modeOfArray a' with
  | .error e => .error e
  | .ok m => .ok (flattenRGBA (applyPilThumbnail { width := a'.width, height := a'.height, mode := m } size))

/-- `create_thumbnail_optimized(img_array, size)`: tone-map floating buffers
(rebinding the local variable), compute the new size with truncating
division, resize with `cv2.resize` — which raises on an empty target size,
whereupon the `except` falls back to `create_thumbnail` on the rebound
array — build the PIL image (an unsupported last axis raises `ValueError`,
also caught by the fallback), and flatten RGBA over white. -/
noncomputable def create_thumbnail_optimized (a : ImgArray) (size : ℕ) :
    Except String PILImage :=
  let a' := if isFloatDtype a.dtype then process_hdr_image 2.2 a else a
  let d := optimizedDims a'.width a'.height size
  if d.1 = 0 ∨ d.2 = 0 then create_thumbnail a' size
  else
    match a'.channels with
    | none => .ok { width := d.1, height := d.2, mode := "L" }
    | some 3 => .ok { width := d.1, height := d.2, mode := "RGB" }
    | some 4 => .ok (flattenRGBA { width := d.1, height := d.2, mode := "RGBA" })
    | some _ => create_thumbnail a' size

/-! ## The observable filesystem and decoders -/

/-- The external collaborators the endpoints query: `os.path.exists`,
`os.path.getmtime` (as in `get_cache_key`), `load_image_opencv` and
`load_image_pil`.  Both decoders catch every exception and return `None`, so
they are total functions into `Option`. -/
structure World where
  pathExists : String → Bool
  mtimeOf : String → Option String
  decodeCV : String → Option ImgArray
  decodePIL : String → Option PILImage

/-! ## Worker pipeline -/

/-- The result dictionary produced by `process_image_worker`: the optional
fields model keys that some branches leave out of the Python dict (the
cache-hit branch returns no `width`/`height` keys). -/
structure JobResult where
  success : Bool
  image_bytes : Option BytesVal
  width : Option ℕ
  height : Option ℕ
  from_cache : Option Bool
  error : Option String
  path : String

/-- `process_image_worker(image_path, size)`: cache lookup first (a truthy
cached value is returned without dimensions); on a miss, decode with OpenCV
and build the optimized thumbnail, JPEG-encode at quality 85 and populate the
cache; if OpenCV fails, fall back to PIL decode, shrink, flatten, encode at
85 and populate the cache; any exception (e.g. an unsupported shape) becomes
a per-item failure dict.  The cache state is threaded explicitly. -/
noncomputable def process_image_worker (w : World) (fs : FS) (image_path : String) (size : ℕ) :
    JobResult × FS :=
  if ((get_cached_thumbnail fs (get_cache_key w.mtimeOf image_path size)).map
        bytesTruthy).getD false then
    ({ success := true,
       image_bytes := get_cached_thumbnail fs (get_cache_key w.mtimeOf image_path size),
       width := none, height := none,
       from_cache := some true, error := none, path := image_path }, fs)
  else
    match w.decodeCV image_path with
    | some a =>
      match create_thumbnail_optimized a size with
      | .ok t =>
        ({ success := true, image_bytes := some (image_to_bytes t 85), width := some t.width,
           height := some t.height, from_cache := some false, error := none,
           path := image_path },
         save_cached_thumbnail fs (get_cache_key w.mtimeOf image_path size)
           (image_to_bytes t 85))
      | .error e =>
        ({ success := false, image_bytes := none, width := none, height := none,
           from_cache := none, error := some e, path := image_path }, fs)
    | none =>
      match w.decodePIL image_path with
      | some pimg =>
        ({ success := true,
           image_bytes := some (image_to_bytes (flattenRGBA (applyPilThumbnail pimg size)) 85),
           width := some (flattenRGBA (applyPilThumbnail pimg size)).width,
           height := some (flattenRGBA (applyPilThumbnail pimg size)).height,
           from_cache := some false, error := none, path := image_path },
         save_cached_thumbnail fs (get_cache_key w.mtimeOf image_path size)
           (image_to_bytes (flattenRGBA (applyPilThumbnail pimg size)) 85))
      | none =>
        ({ success := false, image_bytes := none, width := none, height := none,
           from_cache := none, error := some "Failed to load image",
           path := image_path }, fs)

/-- The `asyncio.gather` fan-out of `process_image_worker` over the valid
paths: results come back in task order; the shared cache directory is
threaded through the jobs. -/
noncomputable def runBatchWorkers (w : World) (fs : FS) (paths : List String) (size : ℕ) :
    List JobResult × FS :=
  match paths with
  | [] => ([], fs)
  | p :: rest =>
    ((process_image_worker w fs p size).1
        :: (runBatchWorkers w (process_image_worker w fs p size).2 rest size).1,
     (runBatchWorkers w (process_image_worker w fs p size).2 rest size).2)

/-! ## Response shapes -/

/-- The per-path entry of the `/thumbnail` and `/batch-thumbnails` response
models (`ThumbnailResult` in the source). -/
structure ThumbnailResult where
  success : Bool
  data_url : Option DataUrl
  width : Option ℕ
  height : Option ℕ
  error : Option String
deriving DecidableEq

/-- A per-path entry of the `/batch-thumbnails-parallel` response: the success
dict carries bytes, dimensions (defaulted to 0 by `result.get('width', 0)`)
and the cache flag; the failure dict carries only the error text. -/
inductive ParallelEntry where
  | ok (path : String) (image_bytes : Option BytesVal) (width height : ℕ) (from_cache : Bool)
  | fail (path : String) (error : String)

/-- The path a parallel batch entry reports. -/
def entryPath : ParallelEntry → String
  | .ok p _ _ _ _ => p
  | .fail p _ => p

/-- Whether a parallel batch entry reports success. -/
def entryIsOk : ParallelEntry → Bool
  | .ok _ _ _ _ _ => true
  | .fail _ _ => false

/-- The `/batch-thumbnails-parallel` response dict (the wall-clock fields
`processing_time` and `images_per_second` are not statable and are elided). -/
structure ParallelBatchResponse where
  success : Bool
  thumbnails : List ParallelEntry
  total_processed : ℕ
  cache_hits : ℕ
  error : Option String

/-- The `/batch-thumbnails` response model (`BatchThumbnailResult` in the
source); the Python dict keyed by path is modelled as an association list in
insertion order. -/
structure BatchThumbnailResult where
  success : Bool
  thumbnails : List (String × ThumbnailResult)
  total_processed : ℕ
  error : Option String

/-! ## Endpoints

Endpoints that never touch the cache directory still take and return the
`FS` state, so that non-interference with the store is a statable frame
property. -/

/-- The `/thumbnail` endpoint (`generate_thumbnail`).  The
`raise HTTPException(404)` sits inside the same `try` whose
`except Exception` converts every exception into a failure-shaped
`ThumbnailResult`, so the endpoint always returns a normal result.  Both
success paths call `image_to_data_url` without a quality argument, hence
quality 90 (the Python default). -/
noncomputable def generate_thumbnail (w : World) (fs : FS) (image_path : String) (size : ℕ) :
    ThumbnailResult × FS :=
  if !w.pathExists image_path then
    ({ success := false, data_url := none, width := none, height := none,
       error := some "404: Image file not found" }, fs)
  else
    match w.decodeCV image_path with
    | some a =>
      match create_thumbnail a size with
      | .ok t =>
        ({ success := true, data_url := some (image_to_data_url t 90),
           width := some t.width, height := some t.height, error := none }, fs)
      | .error e =>
        ({ success := false, data_url := none, width := none, height := none,
           error := some e }, fs)
    | none =>
      match w.decodePIL image_path with
      | some pimg =>
        let t := flattenRGBA (applyPilThumbnail pimg size)
        ({ success := true, data_url := some (image_to_data_url t 90),
           width := some t.width, height := some t.height, error := none }, fs)
      | none =>
        ({ success := false, data_url := none, width := none, height := none,
           error := some "Failed to load image with both OpenCV and PIL" }, fs)

/-- The per-path loop body of `/batch-thumbnails`: missing file, OpenCV path
(quality 85), PIL fallback (quality 85), both-decoders-failed; the per-item
`except` turns a `create_thumbnail` exception into a failure entry. -/
noncomputable def batchItem (w : World) (image_path : String) (size : ℕ) : ThumbnailResult :=
  if !w.pathExists image_path then
    { success := false, data_url := none, width := none, height := none,
      error := some "Image file not found" }
  else
    match w.decodeCV image_path with
    | some a =>
      match create_thumbnail a size with
      | .ok t =>
        { success := true, data_url := some (image_to_data_url t 85),
          width := some t.width, height := some t.height, error := none }
      | .error e =>
        { success := false, data_url := none, width := none, height := none,
          error := some e }
    | none =>
      match w.decodePIL image_path with
      | some pimg =>
        let t := flattenRGBA (applyPilThumbnail pimg size)
        { success := true, data_url := some (image_to_data_url t 85),
          width := some t.width, height := some t.height, error := none }
      | none =>
        { success := false, data_url := none, width := none, height := none,
          error := some "Failed to load image with both OpenCV and PIL" }

/-- Assignment `thumbnails[image_path] = value` on the Python dict modelled
as an association list: overwrite an existing key in place, else append. -/
def dictInsert (d : List (String × ThumbnailResult)) (k : String) (v : ThumbnailResult) :
    List (String × ThumbnailResult) :=
  if d.any (fun kv => kv.1 == k) then
    d.map fun kv => if kv.1 == k then (k, v) else kv
  else d ++ [(k, v)]

/-- One iteration of the `/batch-thumbnails` loop: store the entry and count
the successes. -/
noncomputable def batchStep (w : World) (size : ℕ)
    (acc : List (String × ThumbnailResult) × ℕ) (image_path : String) :
    List (String × ThumbnailResult) × ℕ :=
  let r := batchItem w image_path size
  (dictInsert acc.1 image_path r, acc.2 + (if r.success then 1 else 0))

/-- The `/batch-thumbnails` endpoint (`generate_batch_thumbnails`): iterate
the per-path body over the requested paths; the endpoint itself never reads
or writes the cache directory. -/
noncomputable def generate_batch_thumbnails (w : World) (fs : FS) (image_paths : List String)
    (size : ℕ) : BatchThumbnailResult × FS :=
  ({ success := true,
     thumbnails := (image_paths.foldl (batchStep w size) ([], 0)).1,
     total_processed := (image_paths.foldl (batchStep w size) ([], 0)).2,
     error := none }, fs)

/-- The `/batch-thumbnails-parallel` endpoint
(`generate_batch_thumbnails_parallel`): paths failing `os.path.exists` are
filtered out up front; an empty remainder is a wholesale failure; otherwise
the workers run over the remaining paths and each result dict is re-shaped
into a success entry (with `result.get('width', 0)` defaults) or a failure
entry. -/
noncomputable def generate_batch_thumbnails_parallel (w : World) (fs : FS)
    (image_paths : List String) (size : ℕ) : ParallelBatchResponse × FS :=
  if (image_paths.filter fun p => w.pathExists p).isEmpty then
    ({ success := false, thumbnails := [], total_processed := 0, cache_hits := 0,
       error := some "No valid image files found" }, fs)
  else
    ({ success := true,
       thumbnails :=
         (runBatchWorkers w fs (image_paths.filter fun p => w.pathExists p) size).1.map
           fun r =>
             if r.success then
               ParallelEntry.ok r.path r.image_bytes (r.width.getD 0) (r.height.getD 0)
                 (r.from_cache.getD false)
             else
               ParallelEntry.fail r.path (r.error.getD "Unknown error"),
       total_processed :=
         ((runBatchWorkers w fs (image_paths.filter fun p => w.pathExists p) size).1.filter
           fun r => r.success).length,
       cache_hits :=
         ((runBatchWorkers w fs (image_paths.filter fun p => w.pathExists p) size).1.filter
           fun r => r.success && r.from_cache.getD false).length,
       error := none },
     (runBatchWorkers w fs (image_paths.filter fun p => w.pathExists p) size).2)

/-! ## Full-resolution endpoints -/

/-- The shared body of `/full-image` and `/full-image-binary` after a
successful OpenCV decode: tone-map floating buffers, build the PIL image
(unsupported shapes raise), shrink only when `max_size > 0`, flatten RGBA. -/
noncomputable def full_image_pil (a : ImgArray) (max_size : ℕ) : Except String PILImage :=
  let a' := if isFloatDtype a.dtype then process_hdr_image 2.2 a else a
  match modeOfArray a' with
  | .error e => .error e
  | .ok m =>
    let pil : PILImage := { width := a'.width, height := a'.height, mode := m }
    .ok (flattenRGBA (if 0 < max_size then applyPilThumbnail pil max_size else pil))

/-- The `/full-image` endpoint (`get_full_image`): the 404 raise and every
other exception are converted by the trailing `except Exception` into a
failure-shaped `ThumbnailResult`; success encodes a data URL at quality 95. -/
noncomputable def get_full_image (w : World) (fs : FS) (image_path : String) (max_size : ℕ) :
    ThumbnailResult × FS :=
  if !w.pathExists image_path then
    ({ success := false, data_url := none, width := none, height := none,
       error := some "404: Image file not found" }, fs)
  else
    match w.decodeCV image_path with
    | some a =>
      match full_image_pil a max_size with
      | .ok t =>
        ({ success := true, data_url := some (image_to_data_url t 95),
           width := some t.width, height := some t.height, error := none }, fs)
      | .error e =>
        ({ success := false, data_url := none, width := none, height := none,
           error := some e }, fs)
    | none =>
      ({ success := false, data_url := none, width := none, height := none,
         error := some "Failed to load full image" }, fs)

/-- A raw-byte HTTP response with the width/height headers. -/
structure BinaryImageResponse where
  content : BytesVal
  width : ℕ
  height : ℕ
deriving DecidableEq

/-- An `HTTPException` escaping an endpoint. -/
structure HTTPError where
  status : ℕ
  detail : String
deriving DecidableEq

/-- The `/full-image-binary` endpoint (`get_full_image_binary`): its
`except Exception` re-raises everything — including the inner
`HTTPException`s, whose string forms become the detail — as a 500; success is
a JPEG response at quality 95. -/
noncomputable def get_full_image_binary (w : World) (fs : FS) (image_path : String)
    (max_size : ℕ) : Except HTTPError BinaryImageResponse × FS :=
  if !w.pathExists image_path then
    (.error { status := 500, detail := "404: Image file not found" }, fs)
  else
    match w.decodeCV image_path with
    | some a =>
      match full_image_pil a max_size with
      | .ok t => (.ok { content := image_to_bytes t 95, width := t.width, height := t.height }, fs)
      | .error e => (.error { status := 500, detail := e }, fs)
    | none =>
      (.error { status := 500, detail := "500: Failed to load full image" }, fs)

/-! ## Folder scanner -/

/-- `SUPPORTED_EXTENSIONS`. -/
def SUPPORTED_EXTENSIONS : List String :=
  [".jpg", ".jpeg", ".png", ".gif", ".bmp", ".tiff", ".tif",
   ".webp", ".exr", ".hdr", ".pic", ".psd"]

/-- Python's `str.lower()` on the ASCII file names and suffixes the scanner
handles: per-character lowercasing. -/
def strLower (s : String) : String :=
  String.mk (s.data.map Char.toLower)

/-- Python's string ordering: lexicographic comparison by code point. -/
def charListLe : List Char → List Char → Bool
  | [], _ => true
  | _ :: _, [] => false
  | x :: xs, y :: ys => if x.val = y.val then charListLe xs ys else decide (x.val < y.val)

/-- `a <= b` on Python strings. -/
def strLe (a b : String) : Bool :=
  charListLe a.data b.data

/-- `is_image_file(file_path)`: lower-cased suffix membership in the
supported set. -/
def is_image_file (suffix : String) : Bool :=
  SUPPORTED_EXTENSIONS.contains (strLower suffix)

/-- A directory entry as the scanner observes it via `pathlib`: `statSize`
is the `stat()` result, `none` when the stat call raises. -/
structure DirEntry where
  path : String
  name : String
  suffix : String
  isFile : Bool
  statSize : Option ℕ
deriving DecidableEq

/-- The `ImageFile` response model. -/
structure ImageFile where
  path : String
  name : String
  size : ℕ
  extension : String
  is_supported : Bool
deriving DecidableEq

/-- `get_file_info(file_path)`: a failing stat degrades to size 0 and
`is_supported=False`. -/
def get_file_info (e : DirEntry) : ImageFile :=
  match e.statSize with
  | some n =>
    { path := e.path, name := e.name, size := n, extension := strLower e.suffix,
      is_supported := is_image_file e.suffix }
  | none =>
    { path := e.path, name := e.name, size := 0, extension := strLower e.suffix,
      is_supported := false }

/-- Stable insertion into a sorted list: an element coming later in the input
is placed after the equal elements already present. -/
def insertSorted (le : ImageFile → ImageFile → Bool) (x : ImageFile) :
    List ImageFile → List ImageFile
  | [] => [x]
  | y :: ys => if le x y then x :: y :: ys else y :: insertSorted le x ys

/-- Stable insertion sort; Python's `list.sort` is stable, and any two stable
sorts over the same total preorder agree, so this models
`images.sort(key=lambda x: x.name.lower())` exactly. -/
def stableSortBy (le : ImageFile → ImageFile → Bool) : List ImageFile → List ImageFile
  | [] => []
  | x :: xs => insertSorted le x (stableSortBy le xs)

/-- The name-ordering key of the scanner's sort. -/
def byNameLower (a b : ImageFile) : Bool :=
  strLe (strLower a.name) (strLower b.name)

/-- What the scanner observes of the directory tree: root existence and
directory-ness, plus the `iterdir` and `rglob('*')` listings. -/
structure FolderFS where
  pathExists : String → Bool
  isDir : String → Bool
  iterdir : String → List DirEntry
  rglob : String → List DirEntry

/-- The `ScanResult` response model. -/
structure ScanResult where
  success : Bool
  images : List ImageFile
  total_count : ℕ
  error : Option String
deriving DecidableEq

/-- The `/scan-folder` endpoint (`scan_folder`).  The two
`raise HTTPException` statements sit inside the same `try` whose
`except Exception` catches every exception — `HTTPException` included — and
converts it into a failure-shaped `ScanResult`, so the endpoint always
returns a normal result (the error string is the `str()` of the caught
exception).  Entries that are not files or have unsupported suffixes are
skipped without error. -/
def scan_folder (f : FolderFS) (folder_path : String) (recursive : Bool) : ScanResult :=
  if !f.pathExists folder_path then
    { success := false, images := [], total_count := 0,
      error := some "404: Folder not found" }
  else if !f.isDir folder_path then
    { success := false, images := [], total_count := 0,
      error := some "400: Path is not a directory" }
  else
    let entries := if recursive then f.rglob folder_path else f.iterdir folder_path
    let images := (entries.filter fun e => e.isFile && is_image_file e.suffix).map get_file_info
    let sorted := stableSortBy byNameLower images
    { success := true, images := sorted, total_count := sorted.length, error := none }

/-! ## Named response entries used by the batch statements -/

/-- The failure entry `/batch-thumbnails` stores for a nonexistent path. -/
def notFoundEntry : ThumbnailResult :=
  { success := false, data_url := none, width := none, height := none,
    error := some "Image file not found" }

/-- The success entry `/batch-thumbnails` stores for an OpenCV-decoded path. -/
def ok85Entry (t : PILImage) : ThumbnailResult :=
  { success := true, data_url := some (image_to_data_url t 85), width := some t.width,
    height := some t.height, error := none }

/-- The worker result for a fresh (non-cached) OpenCV-decoded path. -/
def okJob (p : String) (t : PILImage) : JobResult :=
  { success := true, image_bytes := some (image_to_bytes t 85), width := some t.width,
    height := some t.height, from_cache := some false, error := none, path := p }

/-- The `/batch-thumbnails-parallel` success entry for a fresh worker result. -/
def okParallelEntry (p : String) (t : PILImage) : ParallelEntry :=
  ParallelEntry.ok p (some (image_to_bytes t 85)) t.width t.height false

/-- The shorter output dimension as claim C3 words it: the proportional value
rounded to the nearest integer and never below 1. -/
def c3ClaimShorter (shorter longer size : ℕ) : ℕ :=
  max 1 (round ((shorter * size : ℚ) / (longer : ℚ))).toNat

/-! ## Concrete test fixtures -/

/-- A 4 wide, 2 high, 3-channel 8-bit decoded buffer. -/
def imgRGB : ImgArray :=
  { width := 4, height := 2, channels := some 3, dtype := Dtype.uint8, samples := [] }

/-- The thumbnail of `imgRGB` at target size 4 (the box covers the image). -/
def pilRGB : PILImage :=
  { width := 4, height := 2, mode := "RGB" }

/-- A small floating-point buffer. -/
def imgHDR : ImgArray :=
  { width := 1, height := 1, channels := some 3, dtype := Dtype.float32, samples := [1, 2, 3] }

/-- An empty cache directory on a healthy disk. -/
def fsEmpty : FS :=
  { files := fun _ => none, readFails := fun _ => false, writeFails := fun _ => false }

/-- An empty cache directory on a disk whose writes all fail. -/
def fsWriteFail : FS :=
  { files := fun _ => none, readFails := fun _ => false, writeFails := fun _ => true }

/-- A cache directory holding an unreadable artifact, on a failing disk. -/
def fsReadFail : FS :=
  { files := fun _ => some (BytesVal.raw [1]), readFails := fun _ => true,
    writeFails := fun _ => true }

/-- A world in which only `"cex_ok"` exists and decodes (to `imgRGB`). -/
def wC2 : World :=
  { pathExists := fun p => p == "cex_ok",
    mtimeOf := fun _ => none,
    decodeCV := fun p => if p = "cex_ok" then some imgRGB else none,
    decodePIL := fun _ => none }

/-- A world whose single image `"c8path"` has a stable modification time. -/
def wC8 : World :=
  { pathExists := fun _ => true,
    mtimeOf := fun _ => some "77",
    decodeCV := fun _ => none,
    decodePIL := fun _ => none }

/-- A cache directory already holding the artifact for `"c8path"` at size 4. -/
def fsC8 : FS :=
  { files := fun n => if n = "c8path_4_77.jpg" then some (BytesVal.raw [7]) else none,
    readFails := fun _ => false, writeFails := fun _ => false }

/-- A world in which every path exists and decodes to `imgRGB` via OpenCV. -/
def wCV : World :=
  { pathExists := fun _ => true,
    mtimeOf := fun _ => none,
    decodeCV := fun _ => some imgRGB,
    decodePIL := fun _ => none }

/-- A directory listing for the folder-scan scenarios: a supported image, an
unsupported text file, an upper-case supported image and a subdirectory. -/
def c7fs : FolderFS :=
  { pathExists := fun p => p == "c7dir",
    isDir := fun p => p == "c7dir",
    iterdir := fun _ =>
      [{ path := "/d/c.EXR", name := "c.EXR", suffix := ".EXR", isFile := true,
         statSize := some 10240 },
       { path := "/d/b.txt", name := "b.txt", suffix := ".txt", isFile := true,
         statSize := some 10 },
       { path := "/d/sub", name := "sub", suffix := "", isFile := false, statSize := some 0 },
       { path := "/d/a.png", name := "a.png", suffix := ".png", isFile := true,
         statSize := some 2048 }],
    rglob := fun _ => [] }

/-! ## Helper lemmas -/

/-- Left cancellation for string concatenation. -/
theorem string_append_left_cancel {a b c : String} (h : a ++ b = a ++ c) : b = c := by
  have hd := congrArg String.data h
  simp only [String.data_append] at hd
  exact String.ext (List.append_cancel_left hd)

/-- Right cancellation for string concatenation. -/
theorem string_append_right_cancel {a b c : String} (h : a ++ c = b ++ c) : a = b := by
  have hd := congrArg String.data h
  simp only [String.data_append] at hd
  exact String.ext (List.append_cancel_right hd)

/-- A failed or skipped cache write never disturbs other artifact names. -/
theorem save_files_ne (fs : FS) (key : CacheKey) (b : BytesVal) (n : String)
    (h : n ≠ cacheFileName key) :
    (save_cached_thumbnail fs key b).files n = fs.files n := by
  unfold save_cached_thumbnail
  split
  · rfl
  · simp [h]

/-- A worker run on a fresh key whose path decodes via OpenCV returns the
fresh success dict and populates exactly its own cache slot. -/
theorem worker_fresh_cv (w : World) (fs : FS) (p : String) (size : ℕ) (a : ImgArray)
    (t : PILImage)
    (hmiss : fs.files (cacheFileName (get_cache_key w.mtimeOf p size)) = none)
    (hcv : w.decodeCV p = some a)
    (hok : create_thumbnail_optimized a size = Except.ok t) :
    process_image_worker w fs p size =
      (okJob p t,
       save_cached_thumbnail fs (get_cache_key w.mtimeOf p size) (image_to_bytes t 85)) := by
  have hmiss' : get_cached_thumbnail fs (get_cache_key w.mtimeOf p size) = none := by
    unfold get_cached_thumbnail
    rw [hmiss]
  simp [process_image_worker, hmiss', hcv, hok, okJob]

/-! ## Claim C1 -/

/-- Claim C1: for a fixed (path, size, modification-time) triple the cache key
derivation is pure and repeatable (equal stat views give equal keys);
different modification times of the same path give different keys; and when
the stat call fails the derivation falls back to the key over path and size
only, without raising (the embedding is total). -/
theorem c1_cache_key_deterministic (mt1 mt2 : String → Option String) (path : String)
    (size : ℕ) :
    (mt1 path = mt2 path → get_cache_key mt1 path size = get_cache_key mt2 path size)
    ∧ (∀ m m', mt1 path = some m → mt2 path = some m' → m ≠ m' →
        get_cache_key mt1 path size ≠ get_cache_key mt2 path size)
    ∧ (mt1 path = none →
        get_cache_key mt1 path size = md5hex (path ++ "_" ++ toString size)) := by
  refine ⟨fun h => ?_, fun m m' hm hm' hne hkey => ?_, fun h => ?_⟩
  · unfold get_cache_key
    rw [h]
  · unfold get_cache_key at hkey
    rw [hm, hm'] at hkey
    have hs : path ++ "_" ++ toString size ++ "_" ++ m
        = path ++ "_" ++ toString size ++ "_" ++ m' := congrArg CacheKey.digest hkey
    exact hne (string_append_left_cancel hs)
  · unfold get_cache_key
    rw [h]

/-- Witness for C1 at path `"p"`, size 3, modification times `"1.0"` and
`"2.0"`. -/
theorem c1_witness :
    get_cache_key (fun _ => some "1.0") "p" 3 = get_cache_key (fun _ => some "1.0") "p" 3
    ∧ get_cache_key (fun _ => some "1.0") "p" 3 ≠ get_cache_key (fun _ => some "2.0") "p" 3
    ∧ get_cache_key (fun _ => none) "p" 3 = md5hex ("p" ++ "_" ++ toString 3) :=
  ⟨(c1_cache_key_deterministic (fun _ => some "1.0") (fun _ => some "1.0") "p" 3).1 rfl,
   (c1_cache_key_deterministic (fun _ => some "1.0") (fun _ => some "2.0") "p" 3).2.1
     "1.0" "2.0" rfl rfl (by decide),
   (c1_cache_key_deterministic (fun _ => none) (fun _ => none) "p" 3).2.2 rfl⟩

/-! ## Claim C4 -/

/-- Claim C4: on every floating-point buffer the tone mapper equals the exact
four-stage sequence the claim describes — clamp negatives to zero, raise to
the power `1/gamma`, divide by the global maximum when positive (skip
otherwise), scale by 255 and truncate to unsigned 8-bit. -/
theorem c4_tone_map_sequence (gamma : ℝ) (img : ImgArray)
    (h : isFloatDtype img.dtype = true) :
    process_hdr_image gamma img = toneMapSpecC4 gamma img := by
  simp [process_hdr_image, toneMapSpecC4, h, clampNegStage, gammaStage, normalizeStage,
    quantizeStage]

/-- Witness for C4 at gamma 2.2 on the concrete floating buffer `imgHDR`. -/
theorem c4_witness :
    isFloatDtype imgHDR.dtype = true
    ∧ process_hdr_image 2.2 imgHDR = toneMapSpecC4 2.2 imgHDR :=
  ⟨rfl, c4_tone_map_sequence 2.2 imgHDR rfl⟩

/-! ## Claim C5 -/

/-- Claim C5: the tone mapper is the identity on every buffer whose sample
kind is not floating point. -/
theorem c5_tone_map_nonfloat_id (gamma : ℝ) (img : ImgArray)
    (h : isFloatDtype img.dtype = false) :
    process_hdr_image gamma img = img := by
  simp [process_hdr_image, h]

/-- Witness for C5 on the concrete 8-bit buffer `imgRGB`. -/
theorem c5_witness :
    isFloatDtype imgRGB.dtype = false ∧ process_hdr_image 2.2 imgRGB = imgRGB :=
  ⟨rfl, c5_tone_map_nonfloat_id 2.2 imgRGB rfl⟩

/-! ## Claim C7 -/

/-- Claim C7 (code bug): the folder scan is claimed to raise a hard
client-facing HTTP error on a missing root; the code does raise
`HTTPException(404)` but its own `except Exception` immediately catches it
and returns a normal-shaped `ScanResult` with `success=False` — evaluated
here at the failing input `"missing"`.  The second conjunct shows the part of
the claim the code does satisfy: in an existing directory, non-file entries
and unsupported extensions are merely excluded (sorted case-insensitively by
name) and the scan succeeds. -/
theorem c7_scan_folder_swallows_http_error :
    scan_folder c7fs "missing" false
      = { success := false, images := [], total_count := 0,
          error := some "404: Folder not found" }
    ∧ scan_folder c7fs "c7dir" false
      = { success := true,
          images := [{ path := "/d/a.png", name := "a.png", size := 2048,
                       extension := ".png", is_supported := true },
                     { path := "/d/c.EXR", name := "c.EXR", size := 10240,
                       extension := ".exr", is_supported := true }],
          total_count := 2, error := none } := by
  constructor
  · rfl
  · decide

/-! ## Claim C10 -/

/-- Claim C10: the legacy `/thumbnail` and `/batch-thumbnails` endpoints never
read from or write to the cache store: the cache state they return is exactly
the one they were given, and their response is independent of the cache
state. -/
theorem c10_legacy_endpoints_cache_frame (w : World) (fs fs' : FS) (path : String)
    (paths : List String) (size : ℕ) :
    (generate_thumbnail w fs path size).2 = fs
    ∧ (generate_thumbnail w fs path size).1 = (generate_thumbnail w fs' path size).1
    ∧ (generate_batch_thumbnails w fs paths size).2 = fs
    ∧ (generate_batch_thumbnails w fs paths size).1
        = (generate_batch_thumbnails w fs' paths size).1 := by
  refine ⟨?_, ?_, rfl, rfl⟩
  · unfold generate_thumbnail
    split
    · rfl
    · split
      · split <;> rfl
      · split <;> rfl
  · unfold generate_thumbnail
    split
    · rfl
    · split
      · split <;> rfl
      · split <;> rfl

/-! ## Claim C6 -/

/-- Claim C6: a cache read of a missing artifact is a miss; a cache read
whose disk read fails is a miss (the I/O error is swallowed — `get` and `put`
are total in the embedding, mirroring that no exception escapes them); a
cache write whose disk write fails leaves the store unchanged; and a worker
request whose cache write fails still succeeds and still returns the bytes it
produced, with the store unchanged. -/
theorem c6_cache_best_effort :
    (∀ (fs : FS) (key : CacheKey),
        fs.files (cacheFileName key) = none → get_cached_thumbnail fs key = none)
    ∧ (∀ (fs : FS) (key : CacheKey),
        fs.readFails (cacheFileName key) = true → get_cached_thumbnail fs key = none)
    ∧ (∀ (fs : FS) (key : CacheKey) (b : BytesVal),
        fs.writeFails (cacheFileName key) = true → save_cached_thumbnail fs key b = fs)
    ∧ (∀ (w : World) (fs : FS) (p : String) (size : ℕ) (a : ImgArray) (t : PILImage),
        fs.files (cacheFileName (get_cache_key w.mtimeOf p size)) = none →
        fs.writeFails (cacheFileName (get_cache_key w.mtimeOf p size)) = true →
        w.decodeCV p = some a →
        create_thumbnail_optimized a size = Except.ok t →
        (process_image_worker w fs p size).1.success = true
        ∧ (process_image_worker w fs p size).1.image_bytes = some (image_to_bytes t 85)
        ∧ (process_image_worker w fs p size).2 = fs) := by
  refine ⟨fun fs key h => ?_, fun fs key h => ?_, fun fs key b h => ?_,
    fun w fs p size a t hmiss hwf hcv hok => ?_⟩
  · unfold get_cached_thumbnail
    rw [h]
  · unfold get_cached_thumbnail
    cases hf : fs.files (cacheFileName key) with
    | none => rfl
    | some b => simp [h]
  · unfold save_cached_thumbnail
    rw [if_pos h]
  · rw [worker_fresh_cv w fs p size a t hmiss hcv hok]
    refine ⟨rfl, rfl, ?_⟩
    unfold save_cached_thumbnail
    rw [if_pos hwf]

/-- Witness for C6: a missing artifact, an unreadable artifact, a failing
write, and a full worker run over a failing disk, all at concrete inputs. -/
theorem c6_witness :
    get_cached_thumbnail fsEmpty (md5hex "k") = none
    ∧ get_cached_thumbnail fsReadFail (md5hex "k") = none
    ∧ save_cached_thumbnail fsReadFail (md5hex "k") (BytesVal.raw [2]) = fsReadFail
    ∧ ((process_image_worker wCV fsWriteFail "p" 4).1.success = true
        ∧ (process_image_worker wCV fsWriteFail "p" 4).1.image_bytes
            = some (image_to_bytes pilRGB 85)
        ∧ (process_image_worker wCV fsWriteFail "p" 4).2 = fsWriteFail) :=
  ⟨c6_cache_best_effort.1 fsEmpty (md5hex "k") rfl,
   c6_cache_best_effort.2.1 fsReadFail (md5hex "k") rfl,
   c6_cache_best_effort.2.2.1 fsReadFail (md5hex "k") (BytesVal.raw [2]) rfl,
   c6_cache_best_effort.2.2.2 wCV fsWriteFail "p" 4 imgRGB pilRGB rfl rfl rfl rfl⟩

/-! ## Claim C8 -/

/-- Counterexample to claim C8: at the concrete cached input, the worker's
result is successful and served from cache yet carries no output width or
height (the cache-hit branch of `process_image_worker` omits both keys),
refuting the claim that every successful JobResult — including cache-served
ones — contains them. -/
theorem c8_counterexample :
    (process_image_worker wC8 fsC8 "c8path" 4).1.success = true
    ∧ (process_image_worker wC8 fsC8 "c8path" 4).1.from_cache = some true
    ∧ (process_image_worker wC8 fsC8 "c8path" 4).1.width = none
    ∧ (process_image_worker wC8 fsC8 "c8path" 4).1.height = none :=
  ⟨rfl, rfl, rfl, rfl⟩

/-- Claim C8 as amended: a successful JobResult computed fresh (not from
cache) carries the output width and height, the success flag, the bytes and
the from-cache indicator, while a cache-served result omits width and
height. -/
theorem c8_amended (w : World) (fs : FS) (p : String) (size : ℕ) :
    ((process_image_worker w fs p size).1.success = true →
      (process_image_worker w fs p size).1.from_cache = some false →
      (process_image_worker w fs p size).1.width.isSome = true
      ∧ (process_image_worker w fs p size).1.height.isSome = true
      ∧ (process_image_worker w fs p size).1.image_bytes.isSome = true)
    ∧ ((process_image_worker w fs p size).1.from_cache = some true →
      (process_image_worker w fs p size).1.width = none
      ∧ (process_image_worker w fs p size).1.height = none) := by
  unfold process_image_worker
  split
  · exact ⟨fun _ hfc => by simp at hfc, fun _ => ⟨rfl, rfl⟩⟩
  · split
    · split
      · exact ⟨fun _ _ => ⟨rfl, rfl, rfl⟩, fun hfc => by simp at hfc⟩
      · exact ⟨fun hs _ => by simp at hs, fun hfc => by simp at hfc⟩
    · split
      · exact ⟨fun _ _ => ⟨rfl, rfl, rfl⟩, fun hfc => by simp at hfc⟩
      · exact ⟨fun hs _ => by simp at hs, fun hfc => by simp at hfc⟩

/-- Witness for C8 applying the amended claim at the concrete cached input
and at a concrete fresh input. -/
theorem c8_witness :
    ((process_image_worker wC8 fsC8 "c8path" 4).1.width = none
      ∧ (process_image_worker wC8 fsC8 "c8path" 4).1.height = none)
    ∧ ((process_image_worker wCV fsEmpty "p" 4).1.width.isSome = true
      ∧ (process_image_worker wCV fsEmpty "p" 4).1.height.isSome = true
      ∧ (process_image_worker wCV fsEmpty "p" 4).1.image_bytes.isSome = true) :=
  ⟨(c8_amended wC8 fsC8 "c8path" 4).2 rfl,
   (c8_amended wCV fsEmpty "p" 4).1 rfl rfl⟩

/-! ## Claim C9 -/

/-- Counterexample to claim C9: the legacy `/thumbnail` endpoint produces a
successful thumbnail whose data URL is encoded at quality 90 (the
`image_to_data_url` default — both of its success paths omit the quality
argument), not at the claimed 85. -/
theorem c9_counterexample :
    (generate_thumbnail wCV fsEmpty "c9img" 4).1.success = true
    ∧ (generate_thumbnail wCV fsEmpty "c9img" 4).1.data_url.map DataUrl.quality = some 90
    ∧ some (90 : ℕ) ≠ some (85 : ℕ) :=
  ⟨rfl, rfl, by decide⟩

/-- Claim C9 as amended: the worker pipeline and the legacy batch endpoint
encode thumbnails at quality 85, the legacy `/thumbnail` endpoint encodes at
the default quality 90, and both full-resolution endpoints encode at
quality 95. -/
theorem c9_amended (w : World) (fs : FS) (p : String) (size msize : ℕ) (a : ImgArray)
    (t topt tf : PILImage)
    (hex : w.pathExists p = true)
    (hcv : w.decodeCV p = some a)
    (hthumb : create_thumbnail a size = Except.ok t)
    (hopt : create_thumbnail_optimized a size = Except.ok topt)
    (hmiss : fs.files (cacheFileName (get_cache_key w.mtimeOf p size)) = none)
    (hfull : full_image_pil a msize = Except.ok tf) :
    (generate_thumbnail w fs p size).1.data_url = some (image_to_data_url t 90)
    ∧ (batchItem w p size).data_url = some (image_to_data_url t 85)
    ∧ (process_image_worker w fs p size).1.image_bytes = some (image_to_bytes topt 85)
    ∧ (get_full_image w fs p msize).1.data_url = some (image_to_data_url tf 95)
    ∧ (get_full_image_binary w fs p msize).1
        = Except.ok { content := image_to_bytes tf 95, width := tf.width,
                      height := tf.height } := by
  refine ⟨?_, ?_, ?_, ?_, ?_⟩
  · simp [generate_thumbnail, hex, hcv, hthumb]
  · simp [batchItem, hex, hcv, hthumb]
  · rw [worker_fresh_cv w fs p size a topt hmiss hcv hopt]
    rfl
  · simp [get_full_image, hex, hcv, hfull]
  · simp [get_full_image_binary, hex, hcv, hfull]

/-- Witness for C9 at the concrete world `wCV`, path `"p"`, size 4 and
unconstrained full export. -/
theorem c9_witness :
    (generate_thumbnail wCV fsEmpty "p" 4).1.data_url = some (image_to_data_url pilRGB 90)
    ∧ (batchItem wCV "p" 4).data_url = some (image_to_data_url pilRGB 85)
    ∧ (process_image_worker wCV fsEmpty "p" 4).1.image_bytes
        = some (image_to_bytes pilRGB 85)
    ∧ (get_full_image wCV fsEmpty "p" 0).1.data_url = some (image_to_data_url pilRGB 95)
    ∧ (get_full_image_binary wCV fsEmpty "p" 0).1
        = Except.ok { content := image_to_bytes pilRGB 95, width := pilRGB.width,
                      height := pilRGB.height } :=
  c9_amended wCV fsEmpty "p" 4 0 imgRGB pilRGB pilRGB pilRGB rfl rfl rfl rfl rfl rfl

/-! ## Claim C3 -/

/-- `round_aspect` always returns the floor or the ceiling of its argument,
clamped to at least 1, whatever the key function. -/
theorem roundAspect_cases (q : ℚ) (key : ℤ → ℚ) :
    roundAspect q key = max ⌊q⌋ 1 ∨ roundAspect q key = max ⌈q⌉ 1 := by
  unfold roundAspect
  split
  · exact Or.inl rfl
  · exact Or.inr rfl

/-- For a positive argument, `round_aspect` is at least 1 and within 1 of the
argument. -/
theorem roundAspect_bounds (q : ℚ) (key : ℤ → ℚ) (hq : 0 < q) :
    1 ≤ roundAspect q key ∧ |((roundAspect q key : ℤ) : ℚ) - q| < 1 := by
  rcases roundAspect_cases q key with h | h <;> rw [h]
  · refine ⟨le_max_right _ _, ?_⟩
    rcases le_or_lt 1 ⌊q⌋ with hf | hf
    · rw [max_eq_left hf, abs_sub_lt_iff]
      constructor
      · have h1 : ((⌊q⌋ : ℤ) : ℚ) ≤ q := Int.floor_le q
        linarith
      · have h2 : q < ((⌊q⌋ : ℤ) : ℚ) + 1 := Int.lt_floor_add_one q
        linarith
    · have hf0 : ⌊q⌋ = 0 := by
        have : 0 ≤ ⌊q⌋ := Int.floor_nonneg.mpr hq.le
        omega
      have hq1 : q < 1 := by
        have h2 : q < ((⌊q⌋ : ℤ) : ℚ) + 1 := Int.lt_floor_add_one q
        rw [hf0] at h2
        simpa using h2
      rw [max_eq_right (by omega), abs_sub_lt_iff]
      constructor
      · norm_num
        linarith
      · norm_num
        linarith
  · have hc : 1 ≤ ⌈q⌉ := Int.ceil_pos.mpr hq
    refine ⟨le_trans hc (le_max_left _ _), ?_⟩
    rw [max_eq_left hc, abs_sub_lt_iff]
    constructor
    · have h1 : ((⌈q⌉ : ℤ) : ℚ) < q + 1 := Int.ceil_lt_add_one q
      linarith
    · have h2 : q ≤ ((⌈q⌉ : ℤ) : ℚ) := Int.le_ceil q
      linarith

/-- `round_aspect` never exceeds an integer bound that dominates its
argument. -/
theorem roundAspect_le (q : ℚ) (key : ℤ → ℚ) (s : ℤ) (hs : 1 ≤ s) (h : q ≤ (s : ℚ)) :
    roundAspect q key ≤ s := by
  rcases roundAspect_cases q key with h' | h' <;> rw [h']
  · exact max_le (le_trans (Int.floor_le_ceil q) (Int.ceil_le.mpr h)) hs
  · exact max_le (Int.ceil_le.mpr h) hs

/-- Natural division is the floor of the rational quotient. -/
theorem natDiv_rat_bounds (a b : ℕ) (hb : 0 < b) :
    ((a / b : ℕ) : ℚ) ≤ (a : ℚ) / (b : ℚ) ∧ (a : ℚ) / (b : ℚ) < ((a / b : ℕ) : ℚ) + 1 := by
  have hbq : (0 : ℚ) < b := by exact_mod_cast hb
  constructor
  · exact Nat.cast_div_le
  · rw [div_lt_iff₀ hbq]
    have h1 : a = b * (a / b) + a % b := (Nat.div_add_mod a b).symm
    have h2 : a % b < b := Nat.mod_lt a hb
    have h1q : (a : ℚ) = (b : ℚ) * ((a / b : ℕ) : ℚ) + ((a % b : ℕ) : ℚ) := by
      exact_mod_cast congrArg (Nat.cast (R := ℚ)) h1
    have h2q : ((a % b : ℕ) : ℚ) < (b : ℚ) := by exact_mod_cast h2
    nlinarith

/-- Counterexample to claim C3: on a 10 wide, 3 high buffer at target size 9,
the optimized builder computes the shorter dimension by truncation, giving 2,
while the claimed round-to-nearest value of the proportional size (2.7)
is 3. -/
theorem c3_counterexample :
    optimizedDims 10 3 9 = (9, 2) ∧ c3ClaimShorter 3 10 9 = 3 := by
  constructor
  · decide
  · norm_num [c3ClaimShorter, round_eq]
    rfl

/-- Claim C3 as amended: for positive dimensions and a target size not above
the longer side, `create_thumbnail_optimized` scales the longer side to
exactly the target and the shorter side to the floor (truncation) of the
proportional value, with no lower clamp; the PIL path of `create_thumbnail`
scales the longer side to exactly the target and the shorter side to a value
at least 1 and within 1 of the proportional value (its floor or ceiling,
clamped to 1). -/
theorem c3_amended (w h s : ℕ) (hw : 0 < w) (hh : 0 < h) (hs : 0 < s)
    (hle : s ≤ max w h) :
    (max (optimizedDims w h s).1 (optimizedDims w h s).2 = s
      ∧ min (optimizedDims w h s).1 (optimizedDims w h s).2 = min w h * s / max w h
      ∧ (((min (optimizedDims w h s).1 (optimizedDims w h s).2 : ℕ) : ℚ)
            ≤ ((min w h * s : ℕ) : ℚ) / ((max w h : ℕ) : ℚ)
        ∧ ((min w h * s : ℕ) : ℚ) / ((max w h : ℕ) : ℚ)
            < ((min (optimizedDims w h s).1 (optimizedDims w h s).2 : ℕ) : ℚ) + 1))
    ∧ (max (pilThumbnailDims w h s).1 (pilThumbnailDims w h s).2 = s
      ∧ 1 ≤ min (pilThumbnailDims w h s).1 (pilThumbnailDims w h s).2
      ∧ |((min (pilThumbnailDims w h s).1 (pilThumbnailDims w h s).2 : ℕ) : ℚ)
            - ((min w h * s : ℕ) : ℚ) / ((max w h : ℕ) : ℚ)| < 1) := by
  constructor
  · unfold optimizedDims
    by_cases hcase : h < w
    · rw [if_pos hcase]
      have hdiv : h * s / w ≤ s := by
        calc h * s / w ≤ w * s / w :=
              Nat.div_le_div_right (Nat.mul_le_mul_right s hcase.le)
        _ = s := Nat.mul_div_cancel_left s hw
      rw [min_eq_right hcase.le, max_eq_left hcase.le]
      refine ⟨max_eq_left hdiv, min_eq_right hdiv, ?_⟩
      simpa [min_eq_right hdiv] using natDiv_rat_bounds (h * s) w hw
    · push_neg at hcase
      rw [if_neg (by omega)]
      have hdiv : w * s / h ≤ s := by
        calc w * s / h ≤ h * s / h :=
              Nat.div_le_div_right (Nat.mul_le_mul_right s hcase)
        _ = s := Nat.mul_div_cancel_left s hh
      rw [min_eq_left hcase, max_eq_right hcase]
      refine ⟨max_eq_right hdiv, min_eq_left hdiv, ?_⟩
      simpa [min_eq_left hdiv] using natDiv_rat_bounds (w * s) h hh
  · unfold pilThumbnailDims
    have hhq : (0 : ℚ) < h := by exact_mod_cast hh
    have hsq : (0 : ℚ) < s := by exact_mod_cast hs
    by_cases hbox : s ≥ w ∧ s ≥ h
    · rw [if_pos hbox]
      have hsmax : s = max w h := le_antisymm hle (max_le hbox.1 hbox.2)
      refine ⟨hsmax.symm, by omega, ?_⟩
      rw [hsmax]
      have hmaxq : ((max w h : ℕ) : ℚ) ≠ 0 := by
        have : 0 < max w h := lt_of_lt_of_le hw (le_max_left w h)
        exact_mod_cast this.ne'
      rw [show ((min w h * max w h : ℕ) : ℚ)
            = ((min w h : ℕ) : ℚ) * ((max w h : ℕ) : ℚ) by push_cast; ring]
      rw [mul_div_cancel_right₀ _ hmaxq]
      simp
    · rw [if_neg hbox]
      by_cases hasp : (1 : ℚ) ≥ (w : ℚ) / (h : ℚ)
      · rw [if_pos hasp]
        have hwh : w ≤ h := by
          have := (div_le_one hhq).mp hasp
          exact_mod_cast this
        set q : ℚ := (s : ℚ) * ((w : ℚ) / (h : ℚ)) with hqdef
        have hq : 0 < q := by positivity
        have hqs : q ≤ (s : ℚ) := by
          calc q ≤ (s : ℚ) * 1 := mul_le_mul_of_nonneg_left hasp hsq.le
          _ = (s : ℚ) := mul_one _
        set r := roundAspect q fun n => |(w : ℚ) / (h : ℚ) - (n : ℚ) / (s : ℚ)| with hrdef
        have hb := roundAspect_bounds q
          (fun n => |(w : ℚ) / (h : ℚ) - (n : ℚ) / (s : ℚ)|) hq
        have hrle : r ≤ (s : ℤ) := roundAspect_le q _ (s : ℤ) (by exact_mod_cast hs)
          (by exact_mod_cast hqs)
        have hr1 : 1 ≤ r := hb.1
        have hrtoNat : (r.toNat : ℤ) = r := Int.toNat_of_nonneg (by omega)
        have hrtle : r.toNat ≤ s := by omega
        refine ⟨max_eq_right hrtle, by simp [min_eq_left hrtle]; omega, ?_⟩
        rw [min_eq_left hrtle, min_eq_left hwh, max_eq_right hwh]
        have hcast : ((r.toNat : ℕ) : ℚ) = ((r : ℤ) : ℚ) := by exact_mod_cast hrtoNat
        rw [hcast]
        have hqeq : ((w * s : ℕ) : ℚ) / ((h : ℕ) : ℚ) = q := by
          rw [hqdef]; push_cast; ring
        rw [hqeq]
        exact hb.2
      · rw [if_neg hasp]
        push_neg at hasp
        have hwh : h ≤ w := by
          have h1 := (one_lt_div hhq).mp hasp
          exact_mod_cast h1.le
        set q : ℚ := (s : ℚ) / ((w : ℚ) / (h : ℚ)) with hqdef
        have hq : 0 < q := by positivity
        have hqs : q ≤ (s : ℚ) := by
          rw [hqdef, div_le_iff₀ (by positivity)]
          nlinarith
        set r := roundAspect q fun n => if n = 0 then 0
          else |(w : ℚ) / (h : ℚ) - (s : ℚ) / (n : ℚ)| with hrdef
        have hb := roundAspect_bounds q (fun n => if n = 0 then 0
          else |(w : ℚ) / (h : ℚ) - (s : ℚ) / (n : ℚ)|) hq
        have hrle : r ≤ (s : ℤ) := roundAspect_le q _ (s : ℤ) (by exact_mod_cast hs)
          (by exact_mod_cast hqs)
        have hr1 : 1 ≤ r := hb.1
        have hrtoNat : (r.toNat : ℤ) = r := Int.toNat_of_nonneg (by omega)
        have hrtle : r.toNat ≤ s := by omega
        refine ⟨max_eq_left hrtle, by simp [min_eq_right hrtle]; omega, ?_⟩
        rw [min_eq_right hrtle, min_eq_right hwh, max_eq_left hwh]
        have hcast : ((r.toNat : ℕ) : ℚ) = ((r : ℤ) : ℚ) := by exact_mod_cast hrtoNat
        rw [hcast]
        have hqeq : ((h * s : ℕ) : ℚ) / ((w : ℕ) : ℚ) = q := by
          rw [hqdef]
          field_simp
          ring
        rw [hqeq]
        exact hb.2

/-- Witness for C3 applying the amended claim at the concrete triple
width 10, height 3, target 9. -/
theorem c3_witness :
    (max (optimizedDims 10 3 9).1 (optimizedDims 10 3 9).2 = 9
      ∧ min (optimizedDims 10 3 9).1 (optimizedDims 10 3 9).2 = min 10 3 * 9 / max 10 3
      ∧ (((min (optimizedDims 10 3 9).1 (optimizedDims 10 3 9).2 : ℕ) : ℚ)
            ≤ ((min 10 3 * 9 : ℕ) : ℚ) / ((max 10 3 : ℕ) : ℚ)
        ∧ ((min 10 3 * 9 : ℕ) : ℚ) / ((max 10 3 : ℕ) : ℚ)
            < ((min (optimizedDims 10 3 9).1 (optimizedDims 10 3 9).2 : ℕ) : ℚ) + 1))
    ∧ (max (pilThumbnailDims 10 3 9).1 (pilThumbnailDims 10 3 9).2 = 9
      ∧ 1 ≤ min (pilThumbnailDims 10 3 9).1 (pilThumbnailDims 10 3 9).2
      ∧ |((min (pilThumbnailDims 10 3 9).1 (pilThumbnailDims 10 3 9).2 : ℕ) : ℚ)
            - ((min 10 3 * 9 : ℕ) : ℚ) / ((max 10 3 : ℕ) : ℚ)| < 1) :=
  c3_amended 10 3 9 (by decide) (by decide) (by decide) (by decide)

/-! ## Claim C2 -/

/-- Inserting a fresh key into the dict appends it. -/
theorem dictInsert_notMem (d : List (String × ThumbnailResult)) (k : String)
    (v : ThumbnailResult) (h : d.any (fun kv => kv.1 == k) = false) :
    dictInsert d k v = d ++ [(k, v)] := by
  simp [dictInsert, h]

/-- The `/batch-thumbnails` loop over distinct, characterised paths builds
exactly one entry per path, in request order. -/
theorem batchFold_spec (w : World) (size : ℕ) (entryFn : String → ThumbnailResult) :
    ∀ (ps : List String) (d : List (String × ThumbnailResult)) (c : ℕ),
      ps.Nodup →
      (∀ p ∈ ps, d.any (fun kv => kv.1 == p) = false) →
      (∀ p ∈ ps, batchItem w p size = entryFn p) →
      (ps.foldl (batchStep w size) (d, c)).1 = d ++ ps.map fun p => (p, entryFn p) := by
  intro ps
  induction ps with
  | nil =>
    intro d c _ _ _
    simp
  | cons p ps ih =>
    intro d c hnd hdisj hitem
    rw [List.foldl_cons]
    show ((ps.foldl (batchStep w size)
      (dictInsert d p (batchItem w p size), c + if (batchItem w p size).success then 1 else 0))).1 = _
    rw [hitem p (List.mem_cons_self p ps),
      dictInsert_notMem d p _ (hdisj p (List.mem_cons_self p ps))]
    rw [ih (d ++ [(p, entryFn p)]) _ (List.Nodup.of_cons hnd) ?_ ?_]
    · simp
    · intro q hq
      have hqne : p ≠ q := by
        intro hpq
        exact (List.nodup_cons.mp hnd).1 (hpq ▸ hq)
      rw [List.any_append]
      simp [hdisj q (List.mem_cons_of_mem p hq), hqne]
    · exact fun q hq => hitem q (List.mem_cons_of_mem p hq)

/-- The worker fan-out over paths that all decode via OpenCV, whose cache
keys are fresh and pairwise distinct, returns one fresh success dict per path
in task order. -/
theorem runBatchWorkers_spec (w : World) (size : ℕ) (A : String → ImgArray)
    (T : String → PILImage) :
    ∀ (ps : List String) (fs : FS),
      (∀ p ∈ ps, w.decodeCV p = some (A p)
        ∧ create_thumbnail_optimized (A p) size = Except.ok (T p)) →
      (∀ p ∈ ps, fs.files (cacheFileName (get_cache_key w.mtimeOf p size)) = none) →
      ps.Pairwise (fun p q => cacheFileName (get_cache_key w.mtimeOf p size)
        ≠ cacheFileName (get_cache_key w.mtimeOf q size)) →
      (runBatchWorkers w fs ps size).1 = ps.map fun p => okJob p (T p) := by
  intro ps
  induction ps with
  | nil =>
    intro fs _ _ _
    rfl
  | cons p ps ih =>
    intro fs hgood hfresh hpair
    show ((process_image_worker w fs p size).1
        :: (runBatchWorkers w (process_image_worker w fs p size).2 ps size).1) = _
    rw [worker_fresh_cv w fs p size (A p) (T p) (hfresh p (List.mem_cons_self p ps))
      (hgood p (List.mem_cons_self p ps)).1 (hgood p (List.mem_cons_self p ps)).2]
    rw [List.map_cons]
    congr 1
    rw [ih _ (fun q hq => hgood q (List.mem_cons_of_mem p hq)) ?_
      (List.Pairwise.of_cons hpair)]
    intro q hq
    rw [save_files_ne]
    · exact hfresh q (List.mem_cons_of_mem p hq)
    · exact ((List.pairwise_cons.mp hpair).1 q hq).symm

/-- Claim C2 as amended: for a batch of N distinct paths of which exactly one
does not exist, the rest decoding via OpenCV with no prior cache entries and
pairwise distinct cache keys, `/batch-thumbnails` returns one entry per
requested path (the missing one failing, the others succeeding with the
thumbnail dimensions), while `/batch-thumbnails-parallel` silently filters
the missing path out before dispatch: it succeeds with exactly the N-1
entries of the existing paths — all successful, in order, with no failure
entry for the missing path. -/
theorem c2_amended (w : World) (fs : FS) (paths : List String) (size : ℕ) (bad : String)
    (A : String → ImgArray) (T Topt : String → PILImage)
    (hnd : paths.Nodup)
    (hmem : bad ∈ paths)
    (hbad : w.pathExists bad = false)
    (hex : ∀ p ∈ paths, p ≠ bad → w.pathExists p = true)
    (hdec : ∀ p ∈ paths, p ≠ bad → w.decodeCV p = some (A p))
    (hthumb : ∀ p ∈ paths, p ≠ bad → create_thumbnail (A p) size = Except.ok (T p))
    (hopt : ∀ p ∈ paths, p ≠ bad →
      create_thumbnail_optimized (A p) size = Except.ok (Topt p))
    (hfresh : ∀ p ∈ paths, fs.files (cacheFileName (get_cache_key w.mtimeOf p size)) = none)
    (hkeys : paths.Pairwise (fun p q => cacheFileName (get_cache_key w.mtimeOf p size)
      ≠ cacheFileName (get_cache_key w.mtimeOf q size)))
    (hsome : ∃ g ∈ paths, g ≠ bad) :
    (generate_batch_thumbnails w fs paths size).1.success = true
    ∧ (generate_batch_thumbnails w fs paths size).1.thumbnails
        = paths.map (fun p => (p, if p = bad then notFoundEntry else ok85Entry (T p)))
    ∧ (generate_batch_thumbnails_parallel w fs paths size).1.success = true
    ∧ (generate_batch_thumbnails_parallel w fs paths size).1.thumbnails
        = (paths.filter fun p => w.pathExists p).map (fun p => okParallelEntry p (Topt p))
    ∧ (generate_batch_thumbnails_parallel w fs paths size).1.thumbnails.length
        = paths.length - 1 := by
  have hitem : ∀ p ∈ paths, batchItem w p size
      = if p = bad then notFoundEntry else ok85Entry (T p) := by
    intro p hp
    by_cases hpb : p = bad
    · subst hpb
      simp [batchItem, hbad, notFoundEntry]
    · simp [batchItem, hex p hp hpb, hdec p hp hpb, hthumb p hp hpb, ok85Entry, hpb]
  have hlegacy : (generate_batch_thumbnails w fs paths size).1.thumbnails
      = paths.map (fun p => (p, if p = bad then notFoundEntry else ok85Entry (T p))) := by
    show (paths.foldl (batchStep w size) ([], 0)).1 = _
    rw [batchFold_spec w size _ paths [] 0 hnd (by intro p _; rfl) hitem]
    simp
  -- facts about the filtered path list
  have hmemval : ∀ p, p ∈ (paths.filter fun p => w.pathExists p) ↔ (p ∈ paths ∧ p ≠ bad) := by
    intro p
    rw [List.mem_filter]
    constructor
    · rintro ⟨hp, hpe⟩
      refine ⟨hp, ?_⟩
      intro hpb
      rw [hpb, hbad] at hpe
      exact Bool.false_ne_true hpe
    · rintro ⟨hp, hpb⟩
      exact ⟨hp, hex p hp hpb⟩
  have hne : (paths.filter fun p => w.pathExists p) ≠ [] := by
    obtain ⟨g, hg, hgb⟩ := hsome
    exact List.ne_nil_of_mem ((hmemval g).mpr ⟨hg, hgb⟩)
  have hempty : (paths.filter fun p => w.pathExists p).isEmpty = false := by
    rw [List.isEmpty_eq_false]
    exact hne
  have hrun : (runBatchWorkers w fs (paths.filter fun p => w.pathExists p) size).1
      = (paths.filter fun p => w.pathExists p).map fun p => okJob p (Topt p) := by
    apply runBatchWorkers_spec w size A Topt
    · intro p hp
      obtain ⟨hpp, hpb⟩ := (hmemval p).mp hp
      exact ⟨hdec p hpp hpb, hopt p hpp hpb⟩
    · intro p hp
      exact hfresh p ((hmemval p).mp hp).1
    · exact List.Pairwise.sublist (List.filter_sublist paths) hkeys
  have hshape : ((paths.filter fun p => w.pathExists p).map fun p => okJob p (Topt p)).map
      (fun r => if r.success then
          ParallelEntry.ok r.path r.image_bytes (r.width.getD 0) (r.height.getD 0)
            (r.from_cache.getD false)
        else ParallelEntry.fail r.path (r.error.getD "Unknown error"))
      = (paths.filter fun p => w.pathExists p).map fun p => okParallelEntry p (Topt p) := by
    rw [List.map_map]
    apply List.map_congr_left
    intro p _
    simp [okJob, okParallelEntry]
  have hlen : (paths.filter fun p => w.pathExists p).length = paths.length - 1 := by
    have hcong : (paths.filter fun p => w.pathExists p)
        = paths.filter fun p => p ≠ bad := by
      apply List.filter_congr
      intro p hp
      by_cases hpb : p = bad
      · subst hpb
        simp [hbad]
      · simp [hex p hp hpb, hpb]
    have hcong2 : (paths.filter fun p => decide (p ≠ bad))
        = paths.filter fun p => p != bad := by
      apply List.filter_congr
      intro p _
      by_cases hpb : p = bad <;> simp [hpb]
    rw [hcong, hcong2, ← List.Nodup.erase_eq_filter hnd bad]
    exact List.length_erase_of_mem hmem
  refine ⟨rfl, hlegacy, ?_, ?_, ?_⟩
  · simp [generate_batch_thumbnails_parallel, hempty]
  · show ((if (paths.filter fun p => w.pathExists p).isEmpty then _ else _ :
      ParallelBatchResponse × FS)).1.thumbnails = _
    rw [hempty]
    show ((runBatchWorkers w fs (paths.filter fun p => w.pathExists p) size).1.map _) = _
    rw [hrun, hshape]
  · show ((if (paths.filter fun p => w.pathExists p).isEmpty then _ else _ :
      ParallelBatchResponse × FS)).1.thumbnails.length = _
    rw [hempty]
    show ((runBatchWorkers w fs (paths.filter fun p => w.pathExists p) size).1.map _).length = _
    rw [hrun, hshape, List.length_map]
    exact hlen

/-- Counterexample to claim C2: in the two-path batch `["cex_ok",
"cex_missing"]` with exactly one nonexistent path, the parallel batch
endpoint returns a single-entry result — the nonexistent path is filtered out
before dispatch and gets no failure entry — refuting the claimed length N
with a failing entry for the invalid path. -/
theorem c2_counterexample :
    (generate_batch_thumbnails_parallel wC2 fsEmpty ["cex_ok", "cex_missing"]
        4).1.thumbnails.map entryPath = ["cex_ok"]
    ∧ (generate_batch_thumbnails_parallel wC2 fsEmpty ["cex_ok", "cex_missing"]
        4).1.thumbnails.length = 1
    ∧ (1 : ℕ) ≠ 2 :=
  ⟨rfl, rfl, by decide⟩

/-- Witness for C2 applying the amended claim to the concrete batch
`["cex_ok", "cex_missing"]` in the world `wC2`. -/
theorem c2_witness :
    (generate_batch_thumbnails wC2 fsEmpty ["cex_ok", "cex_missing"] 4).1.success = true
    ∧ (generate_batch_thumbnails wC2 fsEmpty ["cex_ok", "cex_missing"] 4).1.thumbnails
        = ["cex_ok", "cex_missing"].map
            (fun p => (p, if p = "cex_missing" then notFoundEntry else ok85Entry pilRGB))
    ∧ (generate_batch_thumbnails_parallel wC2 fsEmpty ["cex_ok", "cex_missing"]
        4).1.success = true
    ∧ (generate_batch_thumbnails_parallel wC2 fsEmpty ["cex_ok", "cex_missing"]
        4).1.thumbnails
        = (["cex_ok", "cex_missing"].filter fun p => wC2.pathExists p).map
            (fun p => okParallelEntry p pilRGB)
    ∧ (generate_batch_thumbnails_parallel wC2 fsEmpty ["cex_ok", "cex_missing"]
        4).1.thumbnails.length = ["cex_ok", "cex_missing"].length - 1 :=
  c2_amended wC2 fsEmpty ["cex_ok", "cex_missing"] 4 "cex_missing"
    (fun _ => imgRGB) (fun _ => pilRGB) (fun _ => pilRGB)
    (by decide) (by decide) rfl (by decide)
    (by
      intro p hp hne
      simp only [List.mem_cons, List.not_mem_nil, or_false] at hp
      rcases hp with rfl | rfl
      · rfl
      · exact absurd rfl hne)
    (by
      intro p hp hne
      simp only [List.mem_cons, List.not_mem_nil, or_false] at hp
      rcases hp with rfl | rfl
      · rfl
      · exact absurd rfl hne)
    (by
      intro p hp hne
      simp only [List.mem_cons, List.not_mem_nil, or_false] at hp
      rcases hp with rfl | rfl
      · rfl
      · exact absurd rfl hne)
    (by intro p _; rfl)
    (by decide)
    ⟨"cex_ok", by decide, by decide⟩


end ImageServer
